import Mathlib

/-!
Verification development for `dsan-sanitize-piiremover` (src/main.py).

The program's core is `sanitize_text(text, config)`: four sequential
Python `re.sub` passes over the text (SSN, phone, email, credit card),
each enabled by a boolean flag of `SanitizeConfig` and replacing every
match with `config.redact_char`.

We embed the relevant fragment of Python's `re` engine shallowly:
a backtracking matcher over `List Char` whose alternatives are produced
in Python's backtracking priority order (leftmost-first match, greedy
quantifiers prefer longer, lazy quantifiers prefer shorter, the word
boundary `\b` is a zero-width assertion), and a `re.sub`-style scan that
replaces leftmost non-overlapping matches left to right.  Character
classes (`\d`, `\s`, `\w`) use their ASCII meaning, which is exact on
the ASCII inputs considered here.
-/

namespace PiiRemover

/-- ASCII word character, the ASCII part of Python's `\w`: letter, digit
or underscore.  Used by the word-boundary assertion `\b`. -/
def isWordChar (c : Char) : Bool :=
  c.isAlphanum || c == '_'

/-- ASCII part of Python's `\s`: space, tab, newline, carriage return,
vertical tab, form feed. -/
def pyWhitespace (c : Char) : Bool :=
  c == ' ' || c == '\t' || c == '\n' || c == '\r' ||
    c == Char.ofNat 11 || c == Char.ofNat 12

/-- ASCII letter (either case). -/
def isAsciiLetter (c : Char) : Bool :=
  ('A' ≤ c && c ≤ 'Z') || ('a' ≤ c && c ≤ 'z')

/-- Character class of the email local part in src/main.py line 72:
`[A-Za-z0-9._%+-]`. -/
def localClass (c : Char) : Bool :=
  isAsciiLetter c || c.isDigit || c == '.' || c == '_' || c == '%' ||
    c == '+' || c == '-'

/-- Character class of the email domain in src/main.py line 72:
`[A-Za-z0-9.-]`. -/
def domainClass (c : Char) : Bool :=
  isAsciiLetter c || c.isDigit || c == '.' || c == '-'

/-- Character class of the email top-level label in src/main.py line 72:
`[A-Z|a-z]` — note that the source's class literally contains `|`. -/
def tldClass (c : Char) : Bool :=
  ('A' ≤ c && c ≤ 'Z') || c == '|' || ('a' ≤ c && c ≤ 'z')

/-- Phone-number separator class of src/main.py line 68: `[-.\s]`. -/
def phoneSepClass (c : Char) : Bool :=
  c == '-' || c == '.' || pyWhitespace c

/-- Credit-card separator class of src/main.py line 76: `[ -]`. -/
def ccSepClass (c : Char) : Bool :=
  c == ' ' || c == '-'

/-- Regex fragment sufficient for the four patterns of src/main.py.
Greedy and lazy star are restricted to a character-class body, which is
the only form the source patterns use (`\s*`, `[ -]*?`, and the
expansions of `+` and `{m,}`); counted repetitions `{m,n}` are expanded
into sequences and nested greedy options at construction time, which
reproduces Python's backtracking order. -/
inductive RE where
  | eps
  | cls (p : Char → Bool)
  | seq (a b : RE)
  | opt (a : RE)
  | starG (p : Char → Bool)
  | starL (p : Char → Bool)
  | wb
deriving Inhabited

/-- Python `\b`: the characters on the two sides of the current position
(start/end of text counting as non-word) differ in word-character
status. -/
def wordBoundary (prev next : Option Char) : Bool :=
  (match prev with | none => false | some c => isWordChar c) !=
    (match next with | none => false | some c => isWordChar c)

/-- All ways a greedy class star `p*` can consume a prefix of the input,
longest first (Python's greedy backtracking order).  Each outcome is the
remaining input together with the character just before it. -/
def starClsG (p : Char → Bool) : List Char → Option Char →
    List (List Char × Option Char)
  | [], prev => [([], prev)]
  | c :: cs, prev =>
    if p c then starClsG p cs (some c) ++ [(c :: cs, prev)]
    else [(c :: cs, prev)]

/-- All ways a lazy class star `p*?` can consume a prefix of the input,
shortest first (Python's lazy backtracking order). -/
def starClsL (p : Char → Bool) : List Char → Option Char →
    List (List Char × Option Char)
  | [], prev => [([], prev)]
  | c :: cs, prev =>
    if p c then (c :: cs, prev) :: starClsL p cs (some c)
    else [(c :: cs, prev)]

/-- Backtracking matcher: all outcomes of matching `re` against a prefix
of the input, in Python's backtracking priority order.  An outcome is
the remaining input paired with the character immediately before it
(needed by `\b`). -/
def mrun : RE → List Char → Option Char → List (List Char × Option Char)
  | .eps, s, prev => [(s, prev)]
  | .cls _, [], _ => []
  | .cls p, c :: cs, _ => if p c then [(cs, some c)] else []
  | .seq a b, s, prev =>
    (mrun a s prev).flatMap fun sp => mrun b sp.1 sp.2
  | .opt a, s, prev => mrun a s prev ++ [(s, prev)]
  | .starG p, s, prev => starClsG p s prev
  | .starL p, s, prev => starClsL p s prev
  | .wb, s, prev => if wordBoundary prev s.head? then [(s, prev)] else []

/-- Length of the leftmost-first (highest-priority) match of `re` at the
current position, or `none` when the pattern does not match here. -/
def matchAt (re : RE) (s : List Char) (prev : Option Char) : Option Nat :=
  match mrun re s prev with
  | [] => none
  | (s1, _) :: _ => some (s.length - s1.length)

/-- One `re.sub` scan with explicit fuel (one unit per position), kept
structurally recursive so that concrete runs reduce in the kernel.
Scanning proceeds left to right; at each position the pattern is tried,
a match is replaced wholly by `repl` and scanning resumes after it (the
`\b` context of later positions is taken from the original characters,
as in Python, which searches the original string).  A zero-width match
emits the replacement and copies the current character; the four source
patterns always consume at least one character, so this branch is
unreachable for them. -/
def substFuel (re : RE) (repl : List Char) :
    Nat → List Char → Option Char → List Char
  | 0, s, _ => s
  | _ + 1, [], _ => []
  | fuel + 1, c :: cs, prev =>
    match matchAt re (c :: cs) prev with
    | none => c :: substFuel re repl fuel cs (some c)
    | some 0 => repl ++ c :: substFuel re repl fuel cs (some c)
    | some (n + 1) =>
      repl ++ substFuel re repl fuel (cs.drop n) ((c :: cs).get? n)

/-- Python's `re.sub(pattern, repl, s)` for the patterns at hand: replace
every leftmost non-overlapping match of `re` in `s` by `repl`.  The fuel
`s.length` is sufficient because every scanning step consumes at least
one character. -/
def re_sub (re : RE) (repl : List Char) (s : List Char) : List Char :=
  substFuel re repl s.length s none

/-- Concatenation of a list of regex fragments. -/
def cat (l : List RE) : RE :=
  l.foldr .seq .eps

/-- Single literal character. -/
def lit (c : Char) : RE :=
  .cls (fun d => d == c)

/-- Python `\d` (ASCII part): a decimal digit. -/
def digitRE : RE :=
  .cls Char.isDigit

/-- `n`-fold repetition `r{n}`. -/
def repN (r : RE) : Nat → RE
  | 0 => .eps
  | n + 1 => .seq r (repN r n)

/-- Greedy `r{lo,hi}` as `r{lo}` followed by `hi - lo` nested greedy
options, which matches Python's backtracking order (most iterations
first). -/
def repRange (r : RE) (lo hi : Nat) : RE :=
  .seq (repN r lo) (Nat.rec .eps (fun _ acc => .opt (.seq r acc)) (hi - lo))

/-- SSN pattern of src/main.py line 63: `\b\d{3}-\d{2}-\d{4}\b`. -/
def ssnRE : RE :=
  cat [.wb, repN digitRE 3, lit '-', repN digitRE 2, lit '-',
    repN digitRE 4, .wb]

/-- Phone pattern of src/main.py line 68:
`\b(?:\+\d{1,3}\s*)?\(?\d{3}\)?[-.\s]?\d{3}[-.\s]?\d{4}\b`. -/
def phoneRE : RE :=
  cat [.wb,
    .opt (cat [lit '+', repRange digitRE 1 3, .starG pyWhitespace]),
    .opt (lit '('), repN digitRE 3, .opt (lit ')'),
    .opt (.cls phoneSepClass), repN digitRE 3,
    .opt (.cls phoneSepClass), repN digitRE 4, .wb]

/-- Email pattern of src/main.py line 72:
`\b[A-Za-z0-9._%+-]+@[A-Za-z0-9.-]+\.[A-Z|a-z]{2,}\b`
(`x+` is `x x*` and `x{2,}` is `x x x*`, with greedy stars). -/
def emailRE : RE :=
  cat [.wb, .cls localClass, .starG localClass, lit '@',
    .cls domainClass, .starG domainClass, lit '.',
    .cls tldClass, .cls tldClass, .starG tldClass, .wb]

/-- Credit-card pattern of src/main.py line 76: `\b(?:\d[ -]*?){13,16}\b`
(a digit followed by a lazy run of spaces/hyphens, 13 to 16 times,
greedy counted repetition). -/
def ccRE : RE :=
  cat [.wb, repRange (.seq digitRE (.starL ccSepClass)) 13 16, .wb]

/-- Configuration of src/main.py lines 13-23, restricted to the fields
the engine reads.  The pydantic validators of `SanitizeConfig` constrain
only `input_file` and `output_file` (filesystem checks, outside the
engine); no validator constrains `redact_char` or the four flags, so any
marker string — including the empty one — is accepted. -/
structure SanitizeConfig where
  redact_char : List Char
  remove_ssn : Bool
  remove_phone : Bool
  remove_email : Bool
  remove_credit_card : Bool
deriving Repr, DecidableEq

/-- `sanitize_text` of src/main.py lines 54-79: four conditional `re.sub`
passes, in the fixed order SSN, phone, email, credit card, each rebinding
`text`. -/
def sanitize_text (text : List Char) (config : SanitizeConfig) : List Char :=
  let text :=
    if config.remove_ssn then re_sub ssnRE config.redact_char text else text
  let text :=
    if config.remove_phone then re_sub phoneRE config.redact_char text else text
  let text :=
    if config.remove_email then re_sub emailRE config.redact_char text else text
  let text :=
    if config.remove_credit_card then re_sub ccRE config.redact_char text
    else text
  text

/-- Default configuration of the tool: marker `<REDACTED>`, all four
detectors enabled. -/
def defaultConfig : SanitizeConfig :=
  ⟨"<REDACTED>".data, true, true, true, true⟩

/-- The SSN pass of src/main.py lines 61-63 as a standalone function. -/
def ssn_pass (config : SanitizeConfig) (text : List Char) : List Char :=
  if config.remove_ssn then re_sub ssnRE config.redact_char text else text

/-- The phone pass of src/main.py lines 65-68 as a standalone function. -/
def phone_pass (config : SanitizeConfig) (text : List Char) : List Char :=
  if config.remove_phone then re_sub phoneRE config.redact_char text else text

/-- The email pass of src/main.py lines 70-72 as a standalone function. -/
def email_pass (config : SanitizeConfig) (text : List Char) : List Char :=
  if config.remove_email then re_sub emailRE config.redact_char text else text

/-- The credit-card pass of src/main.py lines 74-76 as a standalone
function. -/
def credit_card_pass (config : SanitizeConfig) (text : List Char) : List Char :=
  if config.remove_credit_card then re_sub ccRE config.redact_char text
  else text

/-- The four detector categories of the spec's data model. -/
inductive Category where
  | SSN
  | PHONE
  | EMAIL
  | CREDIT_CARD
deriving Repr, DecidableEq

/-- Instrumented variant of `substFuel` that additionally counts how many
replacements the scan performs; its text component coincides with
`substFuel` (proved below). -/
def substCountFuel (re : RE) (repl : List Char) :
    Nat → List Char → Option Char → List Char × Nat
  | 0, s, _ => (s, 0)
  | _ + 1, [], _ => ([], 0)
  | fuel + 1, c :: cs, prev =>
    match matchAt re (c :: cs) prev with
    | none =>
      let r := substCountFuel re repl fuel cs (some c)
      (c :: r.1, r.2)
    | some 0 =>
      let r := substCountFuel re repl fuel cs (some c)
      (repl ++ c :: r.1, r.2 + 1)
    | some (n + 1) =>
      let r := substCountFuel re repl fuel (cs.drop n) ((c :: cs).get? n)
      (repl ++ r.1, r.2 + 1)

/-- `re.sub` together with the number of replacements it performs. -/
def re_sub_count (re : RE) (repl : List Char) (s : List Char) :
    List Char × Nat :=
  substCountFuel re repl s.length s none

/-- Modelled from the spec: `SanitizationResult` with an output text and
a mapping from category to match count.  No such type exists in
src/main.py — `sanitize_text` returns only the text (line 79) — so this
is the spec's data model, paired below with the instrumented engine. -/
structure SanitizationResult where
  outputText : List Char
  matchCounts : Category → Nat

/-- Modelled from the spec: the sanitize pass instrumented to report, per
category, how many matches that category's pass replaced.  The text
components are exactly the code's passes; the counts are the spec's
`matchCounts`, which the code itself never computes or returns. -/
def sanitize_with_counts (text : List Char) (config : SanitizeConfig) :
    SanitizationResult :=
  let p1 :=
    if config.remove_ssn then re_sub_count ssnRE config.redact_char text
    else (text, 0)
  let p2 :=
    if config.remove_phone then re_sub_count phoneRE config.redact_char p1.1
    else (p1.1, 0)
  let p3 :=
    if config.remove_email then re_sub_count emailRE config.redact_char p2.1
    else (p2.1, 0)
  let p4 :=
    if config.remove_credit_card then
      re_sub_count ccRE config.redact_char p3.1
    else (p3.1, 0)
  ⟨p4.1, fun cat =>
    match cat with
    | .SSN => p1.2
    | .PHONE => p2.2
    | .EMAIL => p3.2
    | .CREDIT_CARD => p4.2⟩

theorem substCountFuel_fst (re : RE) (repl : List Char) :
    ∀ (fuel : Nat) (s : List Char) (prev : Option Char),
      (substCountFuel re repl fuel s prev).1 = substFuel re repl fuel s prev := by
  intro fuel
  induction fuel with
  | zero => intro s prev; rfl
  | succ n ih =>
    intro s prev
    cases s with
    | nil => rfl
    | cons c cs =>
      simp only [substCountFuel, substFuel]
      cases h : matchAt re (c :: cs) prev with
      | none => simp [ih]
      | some k =>
        cases k with
        | zero => simp [ih]
        | succ m => simp [ih]

theorem re_sub_count_fst (re : RE) (repl s : List Char) :
    (re_sub_count re repl s).1 = re_sub re repl s :=
  substCountFuel_fst re repl s.length s none

/-- Item of a parsed `re.sub` replacement template: a literal character,
or a reference to group 0 (the whole match; the four source patterns
contain no capturing group, so every other group reference is an
error). -/
inductive ReplItem where
  | ch (c : Char)
  | group0
deriving Repr, DecidableEq

/-- Octal digit. -/
def isOctDigit (c : Char) : Bool :=
  '0' ≤ c && c ≤ '7'

/-- Numeric value of a decimal (or octal) digit. -/
def digitVal (c : Char) : Nat :=
  c.toNat - '0'.toNat

/-- Decimal numeral in Python `int()` syntax after sign stripping: a
digit, then digits optionally separated by single underscores (no
leading, trailing or doubled underscore). -/
def pyIntCore : List Char → Nat → Option Nat
  | [], acc => some acc
  | '_' :: d :: rest, acc =>
    if d.isDigit then pyIntCore rest (acc * 10 + digitVal d) else none
  | '_' :: [], _ => none
  | d :: rest, acc =>
    if d.isDigit then pyIntCore rest (acc * 10 + digitVal d) else none

/-- Digits part of Python `int()`: nonempty, starts with a digit. -/
def pyIntDigits : List Char → Option Nat
  | [] => none
  | d :: rest => if d.isDigit then pyIntCore rest (digitVal d) else none

/-- Python `int(name)` as used by `parse_template` on a `\g<name>` group
name: surrounding whitespace is stripped, an optional sign is allowed
(ASCII subset; `int()` additionally accepts non-ASCII digits, irrelevant
here). -/
def pyIntOfName (name : List Char) : Option Int :=
  match ((name.dropWhile pyWhitespace).reverse.dropWhile pyWhitespace).reverse with
  | '+' :: rest => (pyIntDigits rest).map Int.ofNat
  | '-' :: rest => (pyIntDigits rest).map (fun n => -(Int.ofNat n))
  | rest => (pyIntDigits rest).map Int.ofNat

/-- ASCII approximation of `str.isidentifier`, as `parse_template` uses
it on group names. -/
def isPyIdentifier : List Char → Bool
  | [] => false
  | c :: rest =>
    (isAsciiLetter c || c == '_') &&
      rest.all fun d => isAsciiLetter d || d.isDigit || d == '_'

/-- Group index denoted by a `\g<name>` group name, following CPython's
`parse_template`: an identifier would be looked up among named groups
(the patterns have none, so it is an unknown-group error, `none`);
otherwise the name is read as a Python integer, a negative index is an
error, and any other failure to parse is a bad-character error.  Only
index 0 (the whole match) can be valid for the four source patterns. -/
def groupIndexOfName (name : List Char) : Option Int :=
  if name = [] then none
  else if isPyIdentifier name then none
  else pyIntOfName name

/-- CPython's `sre_parse.parse_template` for a pattern without capturing
or named groups, returning `none` exactly where the original raises
(`re.error` on a bad escape, a trailing backslash, an out-of-range octal
escape, a malformed or non-zero group reference; `IndexError` on an
unknown group name).  Escapes follow the 3.11 rules: `\g<0>` is the
whole match; `\0` plus up to two octal digits and `\ooo` (three octal
digits, value at most 0o377) are character escapes; `\1`–`\99` are group
references (all invalid here); `\a \b \f \n \r \t \v \\` are the
recognized letter escapes, any other ASCII letter is a bad escape, and a
backslash before a non-letter non-digit is kept literally with that
character.  Fuel is one more than the input length; every step consumes
at least one character, so the fuel never runs out. -/
def parseTemplateFuel : Nat → List Char → Option (List ReplItem)
  | 0, _ => none
  | _ + 1, [] => some []
  | fuel + 1, c :: rest =>
    if c = '\\' then
      match rest with
      | [] => none
      | e :: rest1 =>
        if e = 'g' then
          match rest1 with
          | '<' :: rest2 =>
            (match rest2.dropWhile (fun d => d ≠ '>') with
            | '>' :: rest3 =>
              (match groupIndexOfName (rest2.takeWhile (fun d => d ≠ '>')) with
              | some i =>
                if i = 0 then
                  (parseTemplateFuel fuel rest3).map fun l => .group0 :: l
                else none
              | none => none)
            | _ => none)
          | _ => none
        else if e = '0' then
          match rest1 with
          | d1 :: rest2 =>
            if isOctDigit d1 then
              match rest2 with
              | d2 :: rest3 =>
                if isOctDigit d2 then
                  (parseTemplateFuel fuel rest3).map fun l =>
                    .ch (Char.ofNat (digitVal d1 * 8 + digitVal d2)) :: l
                else
                  (parseTemplateFuel fuel rest2).map fun l =>
                    .ch (Char.ofNat (digitVal d1)) :: l
              | [] =>
                (parseTemplateFuel fuel rest2).map fun l =>
                  .ch (Char.ofNat (digitVal d1)) :: l
            else (parseTemplateFuel fuel rest1).map fun l => .ch (Char.ofNat 0) :: l
          | [] => (parseTemplateFuel fuel rest1).map fun l => .ch (Char.ofNat 0) :: l
        else if e.isDigit then
          match rest1 with
          | d2 :: rest2 =>
            if d2.isDigit then
              match rest2 with
              | d3 :: rest3 =>
                if isOctDigit e && isOctDigit d2 && isOctDigit d3 then
                  if digitVal e * 64 + digitVal d2 * 8 + digitVal d3 ≤ 255 then
                    (parseTemplateFuel fuel rest3).map fun l =>
                      .ch (Char.ofNat
                        (digitVal e * 64 + digitVal d2 * 8 + digitVal d3)) :: l
                  else none
                else none
              | [] => none
            else none
          | [] => none
        else if e = '\\' then
          (parseTemplateFuel fuel rest1).map fun l => .ch '\\' :: l
        else if e = 'a' then
          (parseTemplateFuel fuel rest1).map fun l => .ch (Char.ofNat 7) :: l
        else if e = 'b' then
          (parseTemplateFuel fuel rest1).map fun l => .ch (Char.ofNat 8) :: l
        else if e = 'f' then
          (parseTemplateFuel fuel rest1).map fun l => .ch (Char.ofNat 12) :: l
        else if e = 'n' then
          (parseTemplateFuel fuel rest1).map fun l => .ch (Char.ofNat 10) :: l
        else if e = 'r' then
          (parseTemplateFuel fuel rest1).map fun l => .ch (Char.ofNat 13) :: l
        else if e = 't' then
          (parseTemplateFuel fuel rest1).map fun l => .ch (Char.ofNat 9) :: l
        else if e = 'v' then
          (parseTemplateFuel fuel rest1).map fun l => .ch (Char.ofNat 11) :: l
        else if isAsciiLetter e then none
        else (parseTemplateFuel fuel rest1).map fun l => .ch '\\' :: .ch e :: l
    else (parseTemplateFuel fuel rest).map fun l => .ch c :: l

/-- Parse an `re.sub` replacement string; `none` is the `re.error` /
`IndexError` raised by CPython's template compilation, which happens
before any match is attempted (so a bad marker errors even on text with
zero matches). -/
def parse_template (repl : List Char) : Option (List ReplItem) :=
  parseTemplateFuel (repl.length + 1) repl

/-- Expand a parsed template at one match: group 0 is replaced by the
matched characters. -/
def expandTemplate (tmpl : List ReplItem) (matched : List Char) : List Char :=
  match tmpl with
  | [] => []
  | .ch c :: rest => c :: expandTemplate rest matched
  | .group0 :: rest => matched ++ expandTemplate rest matched

/-- `substFuel` with a parsed template instead of a literal replacement:
each match is replaced by the template expanded at that match. -/
def substTmplFuel (re : RE) (tmpl : List ReplItem) :
    Nat → List Char → Option Char → List Char
  | 0, s, _ => s
  | _ + 1, [], _ => []
  | fuel + 1, c :: cs, prev =>
    match matchAt re (c :: cs) prev with
    | none => c :: substTmplFuel re tmpl fuel cs (some c)
    | some 0 =>
      expandTemplate tmpl [] ++ c :: substTmplFuel re tmpl fuel cs (some c)
    | some (n + 1) =>
      expandTemplate tmpl ((c :: cs).take (n + 1)) ++
        substTmplFuel re tmpl fuel (cs.drop n) ((c :: cs).get? n)

/-- Python's `re.sub(pattern, repl, s)` including the replacement
template: the template is compiled first, and an invalid template is the
error case (`none`), raised even when the pattern has no match in `s`;
on a valid template the scan itself is total. -/
def re_sub_tmpl (re : RE) (repl s : List Char) : Option (List Char) :=
  (parse_template repl).map fun tmpl => substTmplFuel re tmpl s.length s none

/-- `sanitize_text` of src/main.py with the error path of its `re.sub`
calls made explicit: each enabled pass can fail on an invalid
replacement template (the exception propagates, so a failing pass aborts
the rest), and a disabled pass runs no `re.sub` and cannot fail. -/
def sanitize_text_checked (text : List Char) (config : SanitizeConfig) :
    Option (List Char) :=
  (if config.remove_ssn then re_sub_tmpl ssnRE config.redact_char text
   else some text).bind fun t1 =>
    (if config.remove_phone then re_sub_tmpl phoneRE config.redact_char t1
     else some t1).bind fun t2 =>
      (if config.remove_email then re_sub_tmpl emailRE config.redact_char t2
       else some t2).bind fun t3 =>
        if config.remove_credit_card then
          re_sub_tmpl ccRE config.redact_char t3
        else some t3

theorem expandTemplate_map_ch (repl matched : List Char) :
    expandTemplate (repl.map ReplItem.ch) matched = repl := by
  induction repl with
  | nil => rfl
  | cons c rest ih => simp [expandTemplate, ih]

theorem parseTemplateFuel_no_backslash :
    ∀ (fuel : Nat) (l : List Char), l.length < fuel →
      (∀ c ∈ l, c ≠ '\\') →
      parseTemplateFuel fuel l = some (l.map ReplItem.ch) := by
  intro fuel
  induction fuel with
  | zero => intro l hl _; omega
  | succ n ih =>
    intro l hl hc
    cases l with
    | nil => rfl
    | cons c rest =>
      have hcne : ¬(c = '\\') := hc c (List.mem_cons_self c rest)
      simp only [parseTemplateFuel, if_neg hcne]
      rw [ih rest (by simpa using hl)
        (fun d hd => hc d (List.mem_cons_of_mem c hd))]
      rfl

theorem parse_template_no_backslash (repl : List Char)
    (h : '\\' ∉ repl) :
    parse_template repl = some (repl.map ReplItem.ch) :=
  parseTemplateFuel_no_backslash (repl.length + 1) repl (by omega)
    (fun c hc he => h (he ▸ hc))

theorem substTmplFuel_map_ch (re : RE) (repl : List Char) :
    ∀ (fuel : Nat) (s : List Char) (prev : Option Char),
      substTmplFuel re (repl.map ReplItem.ch) fuel s prev =
        substFuel re repl fuel s prev := by
  intro fuel
  induction fuel with
  | zero => intro s prev; rfl
  | succ n ih =>
    intro s prev
    cases s with
    | nil => rfl
    | cons c cs =>
      simp only [substTmplFuel, substFuel]
      cases h : matchAt re (c :: cs) prev with
      | none => simp [ih]
      | some k =>
        cases k with
        | zero => simp [ih, expandTemplate_map_ch]
        | succ m => simp [ih, expandTemplate_map_ch]

theorem re_sub_tmpl_no_backslash (re : RE) (repl s : List Char)
    (h : '\\' ∉ repl) :
    re_sub_tmpl re repl s = some (re_sub re repl s) := by
  simp [re_sub_tmpl, re_sub, parse_template_no_backslash repl h,
    substTmplFuel_map_ch]

theorem sanitize_text_checked_no_backslash (text : List Char)
    (config : SanitizeConfig) (hm : '\\' ∉ config.redact_char) :
    sanitize_text_checked text config = some (sanitize_text text config) := by
  rcases config with ⟨m, fs, fp, fe, fc⟩
  cases fs <;> cases fp <;> cases fe <;> cases fc <;>
    simp [sanitize_text_checked, sanitize_text,
      re_sub_tmpl_no_backslash, hm]

/-- C1: for the input
`"Contact John at 555-123-4567 or john@example.com. SSN: 123-45-6789."`
with all four detectors enabled and marker `<REDACTED>`, `sanitize_text`
returns
`"Contact John at <REDACTED> or <REDACTED>. SSN: <REDACTED>."`,
and the phone number, the email address and the SSN are each replaced
exactly once (credit card: zero). -/
theorem claim_C1 :
    sanitize_text
        "Contact John at 555-123-4567 or john@example.com. SSN: 123-45-6789.".data
        defaultConfig =
      "Contact John at <REDACTED> or <REDACTED>. SSN: <REDACTED>.".data ∧
    (sanitize_with_counts
        "Contact John at 555-123-4567 or john@example.com. SSN: 123-45-6789.".data
        defaultConfig).matchCounts .SSN = 1 ∧
    (sanitize_with_counts
        "Contact John at 555-123-4567 or john@example.com. SSN: 123-45-6789.".data
        defaultConfig).matchCounts .PHONE = 1 ∧
    (sanitize_with_counts
        "Contact John at 555-123-4567 or john@example.com. SSN: 123-45-6789.".data
        defaultConfig).matchCounts .EMAIL = 1 ∧
    (sanitize_with_counts
        "Contact John at 555-123-4567 or john@example.com. SSN: 123-45-6789.".data
        defaultConfig).matchCounts .CREDIT_CARD = 0 :=
  ⟨rfl, rfl, rfl, rfl, rfl⟩

/-- C2, counterexample: the value returned by `sanitize_text` is the
output text alone, so it cannot contain the per-category match counts
claimed for `SanitizationResult`: the inputs `"123-45-6789"` and
`"<REDACTED>"` produce the same return value under the default
configuration, yet the SSN pass performs one replacement on the first
and none on the second — no function of the returned value can report
the counts, hence the result does not contain them. -/
theorem claim_C2_counterexample :
    sanitize_text "123-45-6789".data defaultConfig =
      sanitize_text "<REDACTED>".data defaultConfig ∧
    (sanitize_with_counts "123-45-6789".data defaultConfig).matchCounts
        .SSN = 1 ∧
    (sanitize_with_counts "<REDACTED>".data defaultConfig).matchCounts
        .SSN = 0 :=
  ⟨rfl, rfl, rfl⟩

/-- C2, amended: `sanitize_text` returns only the output text; the
per-category replacement counts of the single pass are well defined (the
instrumented engine computes them) and the text component of the
instrumented pass coincides with what `sanitize_text` returns, but the
counts themselves are not part of the code's return value. -/
theorem claim_C2_amended (text : List Char) (config : SanitizeConfig) :
    (sanitize_with_counts text config).outputText = sanitize_text text config := by
  simp only [sanitize_with_counts, sanitize_text]
  split <;> split <;> split <;> split <;> simp [re_sub_count_fst]

/-- C3: `sanitize_text` is the sequential composition of the four
per-category scan-and-replace passes in the fixed order SSN, phone,
email, credit card, each enabled pass running over the text produced by
the previous one and each disabled pass being the identity. -/
theorem claim_C3 (text : List Char) (config : SanitizeConfig) :
    sanitize_text text config =
      credit_card_pass config
        (email_pass config (phone_pass config (ssn_pass config text))) :=
  rfl

/-- C4, counterexample: for the input `"+1 555-123-4567"` (phone number
with leading `+` and country code, at the start of the text) with only
the phone detector enabled, the code replaces only `"555-123-4567"` and
leaves `"+1 "` in place, because the pattern's leading `\b` cannot hold
between start-of-text (or a space) and the non-word character `+`; the
claim says the whole span including the `+` and country code is
replaced, i.e. that the output would be `"<REDACTED>"`. -/
theorem claim_C4_counterexample :
    sanitize_text "+1 555-123-4567".data
        ⟨"<REDACTED>".data, false, true, false, false⟩ =
      "+1 <REDACTED>".data ∧
    "+1 <REDACTED>".data ≠ "<REDACTED>".data :=
  ⟨rfl, by decide⟩

/-- C4, amended: the leading `+` and country code are part of the
replaced span only when the `+` is immediately preceded by a word
character (so that the leading `\b` holds); when the `+` is preceded by
a space or stands at the start of the text, the match starts at the
first digit of the national number and the `+` and country code are
left in place. -/
theorem claim_C4_amended :
    sanitize_text "call+1 555-123-4567".data
        ⟨"<REDACTED>".data, false, true, false, false⟩ =
      "call<REDACTED>".data ∧
    sanitize_text "+1 555-123-4567".data
        ⟨"<REDACTED>".data, false, true, false, false⟩ =
      "+1 <REDACTED>".data :=
  ⟨rfl, rfl⟩

/-- C5, counterexample: the credit-card separator in the source is the
unbounded lazy `[ -]*?`, not "at most one space or hyphen": the
16-digit run `"4111--1111--1111--1111"`, in which adjacent digit groups
are separated by two hyphens, is matched and replaced, whereas the
claim says such a span is not matched (so the input would be returned
unchanged). -/
theorem claim_C5_counterexample :
    sanitize_text "4111--1111--1111--1111".data
        ⟨"<REDACTED>".data, false, false, false, true⟩ =
      "<REDACTED>".data ∧
    "<REDACTED>".data ≠ "4111--1111--1111--1111".data :=
  ⟨rfl, by decide⟩

/-- C5, amended: the credit-card detector matches boundary-anchored runs
of 13 to 16 digits in which adjacent digits may be separated by any run
of spaces or hyphens (the separator is the unbounded lazy `[ -]*?`);
in particular both a single-space-separated 16-digit run and a
double-hyphen-separated 16-digit run are matched and replaced. -/
theorem claim_C5_amended :
    sanitize_text "4111 1111 1111 1111".data
        ⟨"<REDACTED>".data, false, false, false, true⟩ =
      "<REDACTED>".data ∧
    sanitize_text "4111--1111--1111--1111".data
        ⟨"<REDACTED>".data, false, false, false, true⟩ =
      "<REDACTED>".data :=
  ⟨rfl, rfl⟩

/-- C6, counterexample: a marker that is itself not PII-shaped (the
sanitizer leaves the marker `"@x.cc"` unchanged) can still combine with
adjacent surviving text into a fresh match, so re-running `sanitize`
changes the output: for the input `"z.1234 5678 9012 3"` the
credit-card pass produces `"z.@x.cc"`, and the second run's email pass
matches `"z.@x.cc"` (local part `"z."`), yielding `"@x.cc"` — the claim
that a second run returns the first output unchanged for every
non-PII-shaped marker is false. -/
theorem claim_C6_counterexample :
    sanitize_text "@x.cc".data ⟨"@x.cc".data, true, true, true, true⟩ =
      "@x.cc".data ∧
    sanitize_text
        (sanitize_text "z.1234 5678 9012 3".data
          ⟨"@x.cc".data, true, true, true, true⟩)
        ⟨"@x.cc".data, true, true, true, true⟩ ≠
      sanitize_text "z.1234 5678 9012 3".data
        ⟨"@x.cc".data, true, true, true, true⟩ :=
  ⟨rfl, by decide⟩

/-- C6, amended: re-running `sanitize` on already-redacted output yields
identical output when the marker not only is not PII-shaped but also
does not combine with adjacent text into a new match; with the default
marker `<REDACTED>` this holds on the spec's literal scenario 1: the
first pass's output is a fixed point of `sanitize_text`. -/
theorem claim_C6_amended :
    sanitize_text
        (sanitize_text
          "Contact John at 555-123-4567 or john@example.com. SSN: 123-45-6789.".data
          defaultConfig)
        defaultConfig =
      sanitize_text
        "Contact John at 555-123-4567 or john@example.com. SSN: 123-45-6789.".data
        defaultConfig :=
  rfl

/-- C7: with all four detector flags disabled, `sanitize_text` returns
the input text unchanged, for every input text and every marker. -/
theorem claim_C7 (marker text : List Char) :
    sanitize_text text ⟨marker, false, false, false, false⟩ = text :=
  rfl

/-- C8: a 13-to-16-digit run embedded in a longer alphanumeric token has
no word boundary around it, so the credit-card pattern does not match it
and `sanitize_text` with only credit-card detection enabled returns the
input `"abc123456789012345xyz"` unchanged (the bare pass `re_sub`
likewise leaves it unchanged). -/
theorem claim_C8 :
    sanitize_text "abc123456789012345xyz".data
        ⟨"<REDACTED>".data, false, false, false, true⟩ =
      "abc123456789012345xyz".data ∧
    re_sub ccRE "<REDACTED>".data "abc123456789012345xyz".data =
      "abc123456789012345xyz".data :=
  ⟨rfl, rfl⟩

/-- C9, counterexample: `sanitize_text` is not total over every valid
configuration.  No validator of `SanitizeConfig` constrains
`redact_char`, so the markers `"\q"` and `"\1"` are valid configuration
values; but `re.sub` compiles the replacement as a template before
scanning and raises `re.error` on the bad escape `\q` and on the group
reference `\1` (the patterns have no groups) — even on the input
`"hello"`, which contains no match of any detector.  The claim that
sanitize "returns a result without any error case" for every valid
configuration is therefore false. -/
theorem claim_C9_counterexample :
    sanitize_text_checked "hello".data
        ⟨"\\q".data, true, true, true, true⟩ = none ∧
    sanitize_text_checked "hello".data
        ⟨"\\1".data, true, true, true, true⟩ = none :=
  ⟨rfl, rfl⟩

/-- C9, amended: `sanitize_text` is deterministic — two runs on equal
text and equal configuration return identical output, with no hidden
state or further input influencing the result — and it is total for
every configuration whose redaction marker is a valid replacement
template; in particular, whenever the marker contains no backslash, it
returns a result with no error case, equal to literal replacement of
every match by the marker.  (It is not total for every valid
configuration: a marker that is an invalid template makes the first
enabled pass raise.) -/
theorem claim_C9 (t₁ t₂ : List Char) (c₁ c₂ : SanitizeConfig)
    (ht : t₁ = t₂) (hc : c₁ = c₂) :
    sanitize_text_checked t₁ c₁ = sanitize_text_checked t₂ c₂ ∧
    ('\\' ∉ c₁.redact_char →
      sanitize_text_checked t₁ c₁ = some (sanitize_text t₁ c₁)) := by
  subst ht; subst hc
  exact ⟨rfl, fun hm => sanitize_text_checked_no_backslash t₁ c₁ hm⟩

/-- Witness for C9 at a concrete input: the default marker `<REDACTED>`
contains no backslash, so sanitize returns a result (no error) on a
concrete text containing an SSN and a phone number. -/
theorem claim_C9_witness :
    sanitize_text_checked "123-45-6789. 555-123-4567".data defaultConfig =
      some (sanitize_text "123-45-6789. 555-123-4567".data defaultConfig) :=
  (claim_C9 "123-45-6789. 555-123-4567".data "123-45-6789. 555-123-4567".data
      defaultConfig defaultConfig rfl rfl).2 (by decide)

/-- C10: the configuration accepts an empty redaction marker (no
validator of `SanitizeConfig` constrains `redact_char`, so the empty
string is a legal marker value), and `sanitize_text` with the empty
marker deletes every matched span rather than rejecting the
configuration: each match is replaced by the empty string. -/
theorem claim_C10 :
    sanitize_text
        "Contact John at 555-123-4567 or john@example.com. SSN: 123-45-6789.".data
        ⟨[], true, true, true, true⟩ =
      "Contact John at  or . SSN: .".data :=
  rfl

end PiiRemover
